import Mathlib

/-!
Shallow embedding of the bias-map pipeline (src/streamlit_app.py).

The script expands a template sentence over a catalog of country names
(replacing the placeholder character with each name), batch-scores the
sentences with a sentiment classifier memoized by st.experimental_memo,
normalizes each (label, score) result to a positive-class probability,
builds a (Country, probability) table, and displays the table both raw
and sorted ascending by probability.

Scores are embedded as rationals; the classifier (an external oracle) is
a parameter returning either a batch of results or an error.
-/

/-- One element of the classifier's output: `{"label": ..., "score": ...}`. -/
structure SentimentResult where
  label : String
  score : ℚ
deriving DecidableEq, Repr

/-- Embeds `result_to_positive_class_probability` (streamlit_app.py line 73):
`result["score"] if result["label"] == "POSITIVE" else 1 - result["score"]`. -/
def result_to_positive_class_probability (result : SentimentResult) : ℚ :=
  if result.label = "POSITIVE" then result.score else 1 - result.score

/-- Embeds Python `text_input.replace("*", country_name)` for the
one-character pattern: every occurrence of the placeholder character is
replaced by the country name. -/
def replaceStar (country_name : List Char) : List Char → List Char
  | [] => []
  | c :: rest =>
      if c = '*' then country_name ++ replaceStar country_name rest
      else c :: replaceStar country_name rest

/-- String form of `replaceStar`: the expansion of one template for one
country name (streamlit_app.py line 116). -/
def expandTemplate (text_input country_name : String) : String :=
  String.mk (replaceStar country_name.data text_input.data)

/-- The loop of streamlit_app.py lines 111-116: one review per catalog
entry, in catalog iteration order. -/
def expandAll (text_input : String) (country_names : List String) : List String :=
  country_names.map (fun name => expandTemplate text_input name)

/-- The countries_df built at lines 119-123: the Country column zipped
with the normalized probabilities, in catalog order. -/
def countriesDf (country_names : List String) (results : List SentimentResult) :
    List (String × ℚ) :=
  List.zip country_names (results.map result_to_positive_class_probability)

/-- The choropleth join view (lines 125-131): locations come from the
Country column and featureidkey is the same ADMIN name, so each row is
(name, geometry join key = name, probability). -/
def presentTable (df : List (String × ℚ)) : List (String × String × ℚ) :=
  df.map (fun row => (row.1, row.1, row.2))

instance decLeProb : DecidableRel (fun (a b : String × ℚ) => a.2 ≤ b.2) :=
  fun a b => inferInstanceAs (Decidable (a.2 ≤ b.2))

instance totalLeProb : IsTotal (String × ℚ) (fun a b => a.2 ≤ b.2) :=
  ⟨fun a b => le_total a.2 b.2⟩

instance transLeProb : IsTrans (String × ℚ) (fun a b => a.2 ≤ b.2) :=
  ⟨fun _ _ _ hab hbc => le_trans hab hbc⟩

/-- Embeds `countries_df.sort_values(by="Positive class probability",
ascending=True)` (line 139): a sort of the rows ascending by probability,
returning a new table (pandas sort_values with the default inplace=False). -/
def sort_values (df : List (String × ℚ)) : List (String × ℚ) :=
  List.insertionSort (fun a b => a.2 ≤ b.2) df

/-- Embeds `"*" in text_input` (the assert at line 104): the placeholder
is a single character, so membership is character containment. -/
def containsStar (text_input : String) : Bool :=
  text_input.data.contains '*'

/-- State of the st.experimental_memo cache wrapping `predict` (line 68):
entries keyed by the argument (the reviews batch), plus a count of actual
classifier invocations. -/
structure MemoState where
  cache : List (List String × List SentimentResult)
  callCount : Nat
deriving DecidableEq, Repr

/-- Embeds memoized `predict(reviews)` (lines 68-70): a cache hit returns
the stored batch without calling the classifier; a miss calls it, stores
the batch on success, and stores nothing when the call raises
(st.experimental_memo does not cache exceptions). -/
def predictMemo (classifier : List String → Except String (List SentimentResult))
    (reviews : List String) (s : MemoState) :
    Except String (List SentimentResult) × MemoState :=
  match s.cache.lookup reviews with
  | some results => (Except.ok results, s)
  | none =>
      match classifier reviews with
      | Except.ok results =>
          (Except.ok results, ⟨(reviews, results) :: s.cache, s.callCount + 1⟩)
      | Except.error e => (Except.error e, ⟨s.cache, s.callCount + 1⟩)

/-- Script-level failures: the failed assert at line 104 (the spec's
ValidationError) and a classifier failure propagated out of `predict`. -/
inductive ScriptError where
  | validationError : String → ScriptError
  | oracleError : String → ScriptError
deriving DecidableEq, Repr

/-- What one successful script run displays: the countries_df in catalog
order and the sorted copy passed to st.dataframe at line 139. -/
structure ScriptOutput where
  table : List (String × ℚ)
  sortedView : List (String × ℚ)
deriving DecidableEq, Repr

/-- One rerun of the script body (lines 104-139) for a given template and
catalog: validate the placeholder first, expand, score through the memo
cache, normalize, build the table and its sorted view. -/
def runScript (classifier : List String → Except String (List SentimentResult))
    (country_names : List String) (text_input : String) (s : MemoState) :
    Except ScriptError ScriptOutput × MemoState :=
  if containsStar text_input then
    match predictMemo classifier (expandAll text_input country_names) s with
    | (Except.ok results, s2) =>
        let countries_df := countriesDf country_names results
        (Except.ok ⟨countries_df, sort_values countries_df⟩, s2)
    | (Except.error e, s2) => (Except.error (ScriptError.oracleError e), s2)
  else
    (Except.error (ScriptError.validationError "Use the placeholder!"), s)

/-- Index access through zipWith, with truncation on both sides. -/
theorem zipWith_index (f : α → β → γ) : ∀ (as : List α) (bs : List β) (i : ℕ),
    (List.zipWith f as bs).get? i
      = (as.get? i).bind (fun a => (bs.get? i).map (fun b => f a b))
  | [], bs, i => by cases bs <;> cases i <;> simp
  | _ :: _, [], i => by cases i <;> simp
  | _ :: _, _ :: _, 0 => by simp
  | _ :: as, _ :: bs, (i + 1) => by simpa using zipWith_index f as bs i

/-- Index access through map. -/
theorem map_index (f : α → β) : ∀ (l : List α) (i : ℕ),
    (l.map f).get? i = (l.get? i).map f
  | [], i => by cases i <;> simp
  | _ :: _, 0 => by simp
  | _ :: l, (i + 1) => by simp [map_index f l i]

/-- C1: a result labelled POSITIVE with confidence c normalizes to c, and
a result labelled NEGATIVE with confidence c normalizes to 1 - c. -/
theorem C1_normalization_exact (c : ℚ) :
    result_to_positive_class_probability ⟨"POSITIVE", c⟩ = c
    ∧ result_to_positive_class_probability ⟨"NEGATIVE", c⟩ = 1 - c := by
  constructor <;> simp [result_to_positive_class_probability]

/-- C10: for any label string whatsoever, a score in [0,1] normalizes to
a value in [0,1]; the normalization is total over all labels. -/
theorem C10_total_and_in_range (label : String) (c : ℚ)
    (h0 : 0 ≤ c) (h1 : c ≤ 1) :
    0 ≤ result_to_positive_class_probability ⟨label, c⟩
    ∧ result_to_positive_class_probability ⟨label, c⟩ ≤ 1 := by
  unfold result_to_positive_class_probability
  split <;> constructor <;> simp <;> linarith

/-- Witness for C10 at the out-of-contract label NEUTRAL and c = 3/5. -/
theorem C10_witness :
    0 ≤ result_to_positive_class_probability ⟨"NEUTRAL", (3 : ℚ)/5⟩
    ∧ result_to_positive_class_probability ⟨"NEUTRAL", (3 : ℚ)/5⟩ ≤ 1 :=
  C10_total_and_in_range "NEUTRAL" ((3 : ℚ)/5) (by norm_num) (by norm_num)

/-- C2 counterexample: at the concrete out-of-contract label NEUTRAL the
pipeline does not fail; it silently produces the probability 1 - 3/5. -/
theorem C2_counterexample :
    (runScript (fun _ => Except.ok [⟨"NEUTRAL", (3 : ℚ)/5⟩])
        ["France"] "Filmed in *" ⟨[], 0⟩).1
      = Except.ok ⟨[("France", (2 : ℚ)/5)], [("France", (2 : ℚ)/5)]⟩ := by
  have hp : result_to_positive_class_probability ⟨"NEUTRAL", (3 : ℚ)/5⟩ = 2/5 := by
    unfold result_to_positive_class_probability
    rw [if_neg (by decide : ¬ ("NEUTRAL" : String) = "POSITIVE")]
    norm_num
  have step : (runScript (fun _ => Except.ok [⟨"NEUTRAL", (3 : ℚ)/5⟩])
        ["France"] "Filmed in *" ⟨[], 0⟩).1
      = Except.ok
          ⟨[("France", result_to_positive_class_probability ⟨"NEUTRAL", (3 : ℚ)/5⟩)],
           [("France", result_to_positive_class_probability ⟨"NEUTRAL", (3 : ℚ)/5⟩)]⟩ := rfl
  rw [step, hp]

/-- C2 amended: a result whose label is anything other than POSITIVE
(NEUTRAL included) raises no error; it is scored exactly like NEGATIVE,
yielding probability 1 - confidence. -/
theorem C2_amended_nonpositive_is_negative (label : String) (c : ℚ)
    (h : label ≠ "POSITIVE") :
    result_to_positive_class_probability ⟨label, c⟩ = 1 - c := by
  simp [result_to_positive_class_probability, h]

/-- Witness for the amended C2 at label NEUTRAL and c = 3/5. -/
theorem C2_amended_witness :
    result_to_positive_class_probability ⟨"NEUTRAL", (3 : ℚ)/5⟩ = 1 - (3 : ℚ)/5 :=
  C2_amended_nonpositive_is_negative "NEUTRAL" ((3 : ℚ)/5) (by decide)

/-- C3: a template without the placeholder character fails the assert at
line 104 (the spec's ValidationError) and the memo state is untouched: in
particular the classifier invocation count is unchanged, so no oracle
call happens. -/
theorem C3_validation_before_oracle
    (classifier : List String → Except String (List SentimentResult))
    (country_names : List String) (text_input : String) (s : MemoState)
    (h : containsStar text_input = false) :
    (runScript classifier country_names text_input s).1
      = Except.error (ScriptError.validationError "Use the placeholder!")
    ∧ (runScript classifier country_names text_input s).2 = s := by
  simp [runScript, h]

/-- Witness for C3 on the concrete template "France is great". -/
theorem C3_witness :
    (runScript (fun _ => Except.error "never called") ["France"]
        "France is great" ⟨[], 0⟩).1
      = Except.error (ScriptError.validationError "Use the placeholder!")
    ∧ (runScript (fun _ => Except.error "never called") ["France"]
        "France is great" ⟨[], 0⟩).2 = (⟨[], 0⟩ : MemoState) :=
  C3_validation_before_oracle (fun _ => Except.error "never called")
    ["France"] "France is great" ⟨[], 0⟩ (by rfl)

/-- C5: expansion replaces every occurrence of the placeholder, not only
the first: the concrete two-placeholder template is fully substituted,
and replaceStar is the homomorphic extension of the map sending the
placeholder character to the region name and every other character to
itself. -/
theorem C5_replaces_all_occurrences :
    expandTemplate "A * and another *" "Chad" = "A Chad and another Chad"
    ∧ (∀ r t1 t2, replaceStar r (t1 ++ t2)
        = replaceStar r t1 ++ replaceStar r t2)
    ∧ (∀ r c, replaceStar r [c] = if c = '*' then r else [c]) := by
  refine ⟨rfl, ?_, ?_⟩
  · intro r t1 t2
    induction t1 with
    | nil => simp [replaceStar]
    | cons c rest ih => by_cases hc : c = '*' <;> simp [replaceStar, hc, ih]
  · intro r c
    by_cases hc : c = '*' <;> simp [replaceStar, hc]

/-- C4: once a run for a template has returned a table, rerunning the
script with the same template returns the identical output, the second
run performs no classifier invocation, and the first run performed at
most one. -/
theorem C4_memo_at_most_once
    (classifier : List String → Except String (List SentimentResult))
    (country_names : List String) (text_input : String)
    (s0 : MemoState) (out : ScriptOutput)
    (h : (runScript classifier country_names text_input s0).1 = Except.ok out) :
    (runScript classifier country_names text_input
        (runScript classifier country_names text_input s0).2).1 = Except.ok out
    ∧ (runScript classifier country_names text_input
        (runScript classifier country_names text_input s0).2).2.callCount
        = (runScript classifier country_names text_input s0).2.callCount
    ∧ (runScript classifier country_names text_input s0).2.callCount
        ≤ s0.callCount + 1 := by
  by_cases hstar : containsStar text_input
  · cases hm : s0.cache.lookup (expandAll text_input country_names) with
    | some results =>
        simp only [runScript, predictMemo, hstar, if_true, hm] at h ⊢
        exact ⟨h, trivial, by omega⟩
    | none =>
        cases ho : classifier (expandAll text_input country_names) with
        | error e => simp [runScript, predictMemo, hstar, hm, ho] at h
        | ok results =>
            simp only [runScript, predictMemo, hstar, if_true, hm, ho,
              List.lookup, beq_self_eq_true] at h ⊢
            exact ⟨h, trivial, by omega⟩
  · simp [runScript, hstar] at h

/-- Witness for C4 with a one-country catalog and a POSITIVE oracle. -/
theorem C4_witness :
    (runScript (fun _ => Except.ok [⟨"POSITIVE", (1 : ℚ)/2⟩]) ["France"] "Made in *"
        (runScript (fun _ => Except.ok [⟨"POSITIVE", (1 : ℚ)/2⟩]) ["France"] "Made in *"
          ⟨[], 0⟩).2).1
      = Except.ok ⟨[("France", (1 : ℚ)/2)], [("France", (1 : ℚ)/2)]⟩
    ∧ (runScript (fun _ => Except.ok [⟨"POSITIVE", (1 : ℚ)/2⟩]) ["France"] "Made in *"
        (runScript (fun _ => Except.ok [⟨"POSITIVE", (1 : ℚ)/2⟩]) ["France"] "Made in *"
          ⟨[], 0⟩).2).2.callCount
        = (runScript (fun _ => Except.ok [⟨"POSITIVE", (1 : ℚ)/2⟩]) ["France"] "Made in *"
            ⟨[], 0⟩).2.callCount
    ∧ (runScript (fun _ => Except.ok [⟨"POSITIVE", (1 : ℚ)/2⟩]) ["France"] "Made in *"
        (⟨[], 0⟩ : MemoState)).2.callCount ≤ (⟨[], 0⟩ : MemoState).callCount + 1 :=
  C4_memo_at_most_once (fun _ => Except.ok [⟨"POSITIVE", (1 : ℚ)/2⟩])
    ["France"] "Made in *" ⟨[], 0⟩
    ⟨[("France", (1 : ℚ)/2)], [("France", (1 : ℚ)/2)]⟩ rfl

/-- C7: when the classifier fails on an uncached batch, the run surfaces
the error, the cache gains no entry for that key, and a rerun with the
same template invokes the classifier again (no negative caching). -/
theorem C7_no_negative_caching
    (classifier : List String → Except String (List SentimentResult))
    (country_names : List String) (text_input : String)
    (s0 : MemoState) (e : String)
    (hstar : containsStar text_input = true)
    (hmiss : s0.cache.lookup (expandAll text_input country_names) = none)
    (herr : classifier (expandAll text_input country_names) = Except.error e) :
    (runScript classifier country_names text_input s0).1
      = Except.error (ScriptError.oracleError e)
    ∧ (runScript classifier country_names text_input s0).2.cache = s0.cache
    ∧ (runScript classifier country_names text_input
        (runScript classifier country_names text_input s0).2).2.callCount
        = s0.callCount + 2 := by
  simp [runScript, predictMemo, hstar, hmiss, herr]

/-- Witness for C7 with a classifier that always fails. -/
theorem C7_witness :
    (runScript (fun _ => Except.error "model down") ["France"] "Made in *"
        ⟨[], 0⟩).1 = Except.error (ScriptError.oracleError "model down")
    ∧ (runScript (fun _ => Except.error "model down") ["France"] "Made in *"
        ⟨[], 0⟩).2.cache = (⟨[], 0⟩ : MemoState).cache
    ∧ (runScript (fun _ => Except.error "model down") ["France"] "Made in *"
        (runScript (fun _ => Except.error "model down") ["France"] "Made in *"
          ⟨[], 0⟩).2).2.callCount = (⟨[], 0⟩ : MemoState).callCount + 2 :=
  C7_no_negative_caching (fun _ => Except.error "model down") ["France"]
    "Made in *" ⟨[], 0⟩ "model down" rfl rfl rfl

/-- C6: expansion produces one review per catalog entry with the i-th
review built from the i-th country, and the table pairs the i-th country
with the probability of the i-th result; catalog order is preserved end
to end and no sorting happens in the aggregation. -/
theorem C6_length_and_order
    (country_names : List String) (text_input : String)
    (results : List SentimentResult)
    (h : results.length = country_names.length) :
    (expandAll text_input country_names).length = country_names.length
    ∧ (countriesDf country_names results).length = country_names.length
    ∧ (∀ i, (expandAll text_input country_names).get? i
        = (country_names.get? i).map (fun name => expandTemplate text_input name))
    ∧ (∀ i, (countriesDf country_names results).get? i
        = (country_names.get? i).bind (fun name => (results.get? i).map
            (fun r => (name, result_to_positive_class_probability r)))) := by
  refine ⟨by simp [expandAll], by simp [countriesDf, h], ?_, ?_⟩
  · intro i
    simp [expandAll, map_index]
  · intro i
    have hz : countriesDf country_names results
        = List.zipWith Prod.mk country_names
            (results.map result_to_positive_class_probability) := rfl
    rw [hz, zipWith_index, map_index]
    cases country_names.get? i <;> cases results.get? i <;> simp

/-- Witness for C6 on a two-country catalog. -/
theorem C6_witness :
    (expandAll "Made in *" ["France", "Japan"]).length
        = (["France", "Japan"] : List String).length
    ∧ (countriesDf ["France", "Japan"]
        [⟨"POSITIVE", (1 : ℚ)/2⟩, ⟨"NEGATIVE", (1 : ℚ)/4⟩]).length
        = (["France", "Japan"] : List String).length
    ∧ (∀ i, (expandAll "Made in *" ["France", "Japan"]).get? i
        = ((["France", "Japan"] : List String).get? i).map
            (fun name => expandTemplate "Made in *" name))
    ∧ (∀ i, (countriesDf ["France", "Japan"]
          [⟨"POSITIVE", (1 : ℚ)/2⟩, ⟨"NEGATIVE", (1 : ℚ)/4⟩]).get? i
        = ((["France", "Japan"] : List String).get? i).bind
            (fun name => (([⟨"POSITIVE", (1 : ℚ)/2⟩, ⟨"NEGATIVE", (1 : ℚ)/4⟩]
                : List SentimentResult).get? i).map
              (fun r => (name, result_to_positive_class_probability r)))) :=
  C6_length_and_order ["France", "Japan"] "Made in *"
    [⟨"POSITIVE", (1 : ℚ)/2⟩, ⟨"NEGATIVE", (1 : ℚ)/4⟩] rfl

/-- C8: the end-to-end scenario of the spec: a France/Japan catalog, the
movie template, and an oracle answering (POSITIVE, 0.9) and
(NEGATIVE, 0.7) produce the table France ↦ 0.9, Japan ↦ 0.3 in catalog
order, whose presentation rows carry the name as geometry join key. -/
theorem C8_end_to_end :
    (runScript (fun reviews =>
        if reviews = ["This movie was filmed in France",
                      "This movie was filmed in Japan"]
        then Except.ok [⟨"POSITIVE", (9 : ℚ)/10⟩, ⟨"NEGATIVE", (7 : ℚ)/10⟩]
        else Except.error "unexpected batch")
      ["France", "Japan"] "This movie was filmed in *" ⟨[], 0⟩).1
      = Except.ok ⟨[("France", (9 : ℚ)/10), ("Japan", (3 : ℚ)/10)],
                   [("Japan", (3 : ℚ)/10), ("France", (9 : ℚ)/10)]⟩
    ∧ presentTable [("France", (9 : ℚ)/10), ("Japan", (3 : ℚ)/10)]
      = [("France", "France", (9 : ℚ)/10), ("Japan", "Japan", (3 : ℚ)/10)] := by
  constructor
  · have step : (runScript (fun reviews =>
        if reviews = ["This movie was filmed in France",
                      "This movie was filmed in Japan"]
        then Except.ok [⟨"POSITIVE", (9 : ℚ)/10⟩, ⟨"NEGATIVE", (7 : ℚ)/10⟩]
        else Except.error "unexpected batch")
      ["France", "Japan"] "This movie was filmed in *" ⟨[], 0⟩).1
      = Except.ok ⟨[("France", (9 : ℚ)/10), ("Japan", 1 - (7 : ℚ)/10)],
          sort_values [("France", (9 : ℚ)/10), ("Japan", 1 - (7 : ℚ)/10)]⟩ := rfl
    have h3 : 1 - (7 : ℚ)/10 = 3/10 := by norm_num
    have hs : sort_values [("France", (9 : ℚ)/10), ("Japan", (3 : ℚ)/10)]
        = [("Japan", (3 : ℚ)/10), ("France", (9 : ℚ)/10)] := by
      have hle : ¬ ((9 : ℚ)/10 ≤ 3/10) := by norm_num
      simp [sort_values, List.insertionSort, List.orderedInsert, hle]
    rw [step, h3, hs]
  · rfl

/-- C9: the sorted listing displayed at line 139 is computed on a copy:
after a successful run the table itself (and the batch the memo cache
holds for the template) is still the catalog-order zip of countries with
probabilities, while the sorted view is an ascending permutation of it. -/
theorem C9_sort_does_not_mutate
    (classifier : List String → Except String (List SentimentResult))
    (country_names : List String) (text_input : String)
    (s0 : MemoState) (out : ScriptOutput)
    (h : (runScript classifier country_names text_input s0).1 = Except.ok out) :
    ∃ results,
      ((runScript classifier country_names text_input s0).2).cache.lookup
          (expandAll text_input country_names) = some results
      ∧ out.table = countriesDf country_names results
      ∧ out.sortedView = sort_values out.table
      ∧ List.Perm out.sortedView out.table
      ∧ List.Sorted (fun (a b : String × ℚ) => a.2 ≤ b.2) out.sortedView := by
  by_cases hstar : containsStar text_input
  · cases hm : s0.cache.lookup (expandAll text_input country_names) with
    | some results =>
        simp only [runScript, predictMemo, hstar, if_true, hm] at h ⊢
        injection h with h2
        subst h2
        exact ⟨results, rfl, rfl, rfl,
          List.perm_insertionSort _ _, List.sorted_insertionSort _ _⟩
    | none =>
        cases ho : classifier (expandAll text_input country_names) with
        | error e => simp [runScript, predictMemo, hstar, hm, ho] at h
        | ok results =>
            simp only [runScript, predictMemo, hstar, if_true, hm, ho] at h ⊢
            injection h with h2
            subst h2
            exact ⟨results, by simp [List.lookup], rfl, rfl,
              List.perm_insertionSort _ _, List.sorted_insertionSort _ _⟩
  · simp [runScript, hstar] at h

/-- Witness for C9 on a one-country run with a POSITIVE oracle. -/
theorem C9_witness :
    ∃ results,
      ((runScript (fun _ => Except.ok [⟨"POSITIVE", (1 : ℚ)/2⟩]) ["France"]
          "Born in *" ⟨[], 0⟩).2).cache.lookup
          (expandAll "Born in *" ["France"]) = some results
      ∧ [("France", (1 : ℚ)/2)] = countriesDf ["France"] results
      ∧ [("France", (1 : ℚ)/2)] = sort_values [("France", (1 : ℚ)/2)]
      ∧ List.Perm [("France", (1 : ℚ)/2)] [("France", (1 : ℚ)/2)]
      ∧ List.Sorted (fun (a b : String × ℚ) => a.2 ≤ b.2)
          [("France", (1 : ℚ)/2)] :=
  C9_sort_does_not_mutate (fun _ => Except.ok [⟨"POSITIVE", (1 : ℚ)/2⟩])
    ["France"] "Born in *" ⟨[], 0⟩
    ⟨[("France", (1 : ℚ)/2)], [("France", (1 : ℚ)/2)]⟩ rfl
